import Mathlib

/-!
Shallow embedding of the synchronous-webhook / asynchronous-worker reply bridge
from channel/wechatmp/passive_reply.py: the deduplication ledger, reply cache,
in-flight set, session-state store, bounded-wait policy, chunked delivery
splitter, background image task, and image-fragment delivery.

Python dicts are embedded as association lists with string keys, Python sets as
duplicate-free string lists, and real-valued times as integers.  The bounded
wait loop's outcome (whether the conversation was still in channel.running when
the deadline elapsed) is passed as an explicit boolean, since wall-clock polling
has no shallow embedding.
-/

namespace WMP

/-- dict lookup: dict.get(key) over an association list with string keys. -/
def findKey {α : Type} : List (String × α) → String → Option α
  | [], _ => none
  | (k, v) :: rest, key => if k = key then some v else findKey rest key

/-- dict store: dict[key] = v; replaces the stored value or adds the pair. -/
def upsert {α : Type} : List (String × α) → String → α → List (String × α)
  | [], key, v => [(key, v)]
  | (k, w) :: rest, key, v =>
      if k = key then (key, v) :: rest else (k, w) :: upsert rest key v

/-- dict delete: del dict[key] / dict.pop(key, None); drops the key's pair. -/
def eraseKey {α : Type} : List (String × α) → String → List (String × α)
  | [], _ => []
  | (k, w) :: rest, key =>
      if k = key then eraseKey rest key else (k, w) :: eraseKey rest key

/-- set.add over a duplicate-free list: channel.running.add(from_user). -/
def setAdd (s : List String) (x : String) : List String :=
  if x ∈ s then s else x :: s

/-- The runtime shape of the content stored with an ("image", _) cache entry:
a (media_id, hint_text) tuple, a string naming an existing local file (the
os.path.exists branch), or a bare media-id string. -/
inductive ImageContent where
  | withHint (mediaId : String) (hint : String)
  | localPath (path : String)
  | mediaRef (mediaId : String)
deriving DecidableEq

/-- A cached reply fragment: the (type, content) pairs appended to
channel.cache_dict by the worker and by the webhook handler. -/
inductive Fragment where
  | text (s : List Char)
  | voice (mediaId : String)
  | image (c : ImageContent)
deriving DecidableEq

/-- channel.user_session_state[from_user]: the dict
\x7b"state": ..., "trigger_time": ..., "original_message": ...\x7d. -/
structure SessionState where
  state : String
  trigger_time : Int
  original_message : String
deriving DecidableEq

/-- The four process-wide stores owned by WechatMPChannel that the POST handler
and the background task mutate. -/
structure Channel where
  cache_dict : List (String × List Fragment)
  running : List String
  request_cnt : List (String × Nat)
  user_session_state : List (String × SessionState)
deriving DecidableEq

/-- Modelled from the spec: the channel container class (wechatmp_channel.py) is
not under src/; per spec 4.3, pushBack "appends, creating the queue if absent"
(channel.cache_dict[user].append(...) with a list-valued default). -/
def pushBack (m : List (String × List Fragment)) (key : String) (f : Fragment) :
    List (String × List Fragment) :=
  match findKey m key with
  | none => upsert m key [f]
  | some l => upsert m key (l ++ [f])

/-- Lines 774-782: pop the oldest fragment; when the pop empties the queue the
conversation entry is deleted.  Modelled from the spec for the underrun case:
per spec 4.3 and 7(d), popping an absent or empty queue is a benign no-op (the
container class holding cache_dict is not under src/). -/
def popOne (m : List (String × List Fragment)) (key : String) :
    Option Fragment × List (String × List Fragment) :=
  match findKey m key with
  | none => (none, m)
  | some [] => (none, m)
  | some (f :: rest) =>
      (some f, if rest = [] then eraseKey m key else upsert m key rest)

/-- The invariant of spec 3: no conversation key maps to an empty fragment list. -/
def cacheInvB (m : List (String × List Fragment)) : Bool :=
  m.all (fun q => !q.2.isEmpty)

/-- UTF-8 byte length of a text, len(s.encode("utf8")). -/
def byteLen : List Char → Nat
  | [] => 0
  | c :: cs => c.utf8Size + byteLen cs

/-- Modelled from the spec: MAX_UTF8_LEN lives in channel/wechatmp/common.py,
which is not under src/; the spec gives the per-message byte limit as 2048. -/
def MAX_UTF8_LEN : Nat := 2048

/-- The continuation notice appended to an oversized head (line 788). -/
def continue_text : List Char := "\n【内容过长，回复任意文字以继续】".data

/-- Modelled from the spec: common/utils.py (split_string_by_utf8_length) is not
under src/.  Per spec 4.3 the cut takes at most maxLen bytes at a UTF-8-safe
boundary: the head is the longest prefix of whole code points whose UTF-8 byte
length is at most maxLen, and (with max_split=1) the remainder is the rest. -/
def split_string_by_utf8_length : List Char → Nat → List Char × List Char
  | [], _ => ([], [])
  | c :: cs, maxLen =>
      if c.utf8Size ≤ maxLen then
        let p := split_string_by_utf8_length cs (maxLen - c.utf8Size)
        (c :: p.1, p.2)
      else ([], c :: cs)

/-- A structured webhook reply: a rendered text reply (create_reply(...).render())
or the hand-built image XML response carrying a media id. -/
inductive Response where
  | textReply (s : String)
  | imageXml (mediaId : String)
deriving DecidableEq

/-- Lines 784-807: delivery of a popped ("text", reply_content) fragment.  Within
the limit it is delivered as-is; otherwise the head is cut to at most
MAX_UTF8_LEN minus the notice's byte length, head + notice is delivered, and the
remainder is appended back to the conversation's cache queue (line 795). -/
def deliverText (ch : Channel) (from_user : String) (reply_content : List Char) :
    Response × Channel :=
  if byteLen reply_content ≤ MAX_UTF8_LEN then
    (.textReply (String.mk reply_content), ch)
  else
    let splits := split_string_by_utf8_length reply_content
      (MAX_UTF8_LEN - byteLen continue_text)
    (.textReply (String.mk (splits.1 ++ continue_text)),
     { ch with cache_dict := pushBack ch.cache_dict from_user (.text splits.2) })

/-- Lines 736-737: request_cnt = channel.request_cnt.get(message_id, 0) + 1;
channel.request_cnt[message_id] = request_cnt. -/
def bump (ledger : List (String × Nat)) (mid : String) : Nat × List (String × Nat) :=
  let cnt := (findKey ledger mid).getD 0 + 1
  (cnt, upsert ledger mid cnt)

/-- n successive bumps of the same id: the list of returned counts and the final
ledger. -/
def bumpSeq : Nat → List (String × Nat) → String → List Nat × List (String × Nat)
  | 0, ledger, _ => ([], ledger)
  | n + 1, ledger, mid =>
      let b := bump ledger mid
      let r := bumpSeq n b.2 mid
      (b.1 :: r.1, r.2)

/-- Line 767: channel.request_cnt.pop(message_id) with no default argument;
Python dict.pop raises KeyError when the key is absent, embedded as
Except.error. -/
def clearLedger (ledger : List (String × Nat)) (mid : String) :
    Except Unit (List (String × Nat)) :=
  match findKey ledger mid with
  | none => .error ()
  | some _ => .ok (eraseKey ledger mid)

/-- What a webhook invocation does after the bounded wait: return a raw HTTP
body (the literal "success", after padSleep seconds of sleep), return a rendered
reply, or fall through to fragment delivery. -/
inductive WaitDecision where
  | rawAck (body : String) (padSleep : Nat)
  | renderedReply (s : String)
  | proceed
deriving DecidableEq

/-- Lines 736-767: bump the dedup ledger for message_id, then apply the
post-wait policy.  still_running records whether from_user was still in
channel.running when the wait loop ended (the 4-second deadline elapsed) rather
than the loop breaking early.  In the proceed branch the just-bumped entry is
popped (line 767), so the pop cannot raise. -/
def webhookWaitStep (ch : Channel) (message_id : String) (still_running : Bool) :
    WaitDecision × Channel :=
  let b := bump ch.request_cnt message_id
  let ch1 := { ch with request_cnt := b.2 }
  if still_running then
    if b.1 < 3 then (.rawAck "success" 2, ch1)
    else (.renderedReply "【正在思考中，回复任意文字尝试获取回复】", ch1)
  else (.proceed, { ch1 with request_cnt := eraseKey ch1.request_cnt message_id })

/-- Outcome of the cache-pop phase: an immediate raw return with the given body,
or a popped fragment handed to delivery. -/
inductive PopOutcome where
  | ack (body : String)
  | popped (f : Fragment)
deriving DecidableEq

/-- Lines 769-782: the guard at line 770 returns "success" when the user has no
cache entry and no running task; otherwise the oldest fragment is popped, the
entry being deleted when it empties, and an underrun (IndexError) also returns
"success". -/
def popPhase (ch : Channel) (from_user : String) : PopOutcome × Channel :=
  if findKey ch.cache_dict from_user = none ∧ ¬ from_user ∈ ch.running then
    (.ack "success", ch)
  else
    match popOne ch.cache_dict from_user with
    | (none, m) => (.ack "success", { ch with cache_dict := m })
    | (some f, m) => (.popped f, { ch with cache_dict := m })

/-- n repetitions of the cache-pop phase for the same user. -/
def popIter (u : String) : Nat → Channel → Channel
  | 0, ch => ch
  | n + 1, ch => popIter u n (popPhase ch u).2

/-- Lines 595-656: an inbound image event handled while image_api_require_keyword
is on.  Returns the reply text, the updated channel, and some image_path when
the background thread was started with that path (none when no work was
dispatched).  now and trigger times are integer time points; state_timeout is
conf image_api_state_timeout (default 300). -/
def handleImageRequireKeyword (ch : Channel) (from_user image_path : String)
    (now state_timeout : Int) (trigger_keywords : List String) :
    String × Channel × Option String :=
  match findKey ch.user_session_state from_user with
  | some st =>
      if st.state = "waiting_image" then
        if now - st.trigger_time > state_timeout then
          ("会话已超时，请重新发送触发指令（如：解析题目）",
           { ch with user_session_state := eraseKey ch.user_session_state from_user },
           none)
        else
          ("✅ 已收到图片，正在分析中...请稍候",
           { ch with running := setAdd ch.running from_user,
                     user_session_state := eraseKey ch.user_session_state from_user },
           some image_path)
      else
        ("请先发送触发指令（如：" ++ String.intercalate "、" trigger_keywords ++
           "），然后再上传图片", ch, none)
  | none =>
      ("请先发送触发指令（如：" ++ String.intercalate "、" trigger_keywords ++
         "），然后再上传图片", ch, none)

/-- The value call_remote_image_api returns on success: text only, or
(text, image_path) when the analysis was rendered to a local image. -/
inductive ApiResult where
  | textOnly (s : String)
  | textAndImage (s : String) (image_path : String)
deriving DecidableEq

/-- Outcome of the upload attempt inside the background task (lines 332-361) for
a textAndImage result: the local file may be missing, the upload may raise, or
it may return a media id. -/
inductive UploadOutcome where
  | fileMissing
  | uploadError
  | uploaded (mediaId : String)
deriving DecidableEq

/-- Lines 311-375 (process_image_api_async): the background task caches the
result fragments (image before its text), converts any exception into a
("text", "图片处理出错: " + str(e)) fragment, and in the finally block removes
from_user from channel.running.  api is the call's result, Except.error carrying
str(e) when the call raised. -/
def process_image_api_async (ch : Channel) (from_user : String)
    (api : Except String ApiResult) (upload : UploadOutcome) : Channel :=
  let ch1 :=
    match api with
    | .error e =>
        { ch with cache_dict :=
            pushBack ch.cache_dict from_user (.text ("图片处理出错: " ++ e).data) }
    | .ok (.textOnly s) =>
        { ch with cache_dict := pushBack ch.cache_dict from_user (.text s.data) }
    | .ok (.textAndImage s _path) =>
        match upload with
        | .uploaded mid =>
            { ch with cache_dict :=
                (pushBack (pushBack ch.cache_dict from_user (.image (.mediaRef mid)))
                  from_user (.text s.data)) }
        | .fileMissing =>
            { ch with cache_dict := pushBack ch.cache_dict from_user (.text s.data) }
        | .uploadError =>
            { ch with cache_dict := pushBack ch.cache_dict from_user (.text s.data) }
  { ch1 with running := ch1.running.filter (fun y => y != from_user) }

/-- Lines 871-915: once a media id is in hand the image XML is returned and the
hint text is appended to the user's cache queue (lines 904-908); a missing media
id yields the send-failure reply and caches nothing. -/
def sendImageWithHint (ch : Channel) (from_user : String) (mediaId : Option String)
    (hint : String) : Response × Channel :=
  match mediaId with
  | some mid =>
      (.imageXml mid,
       { ch with cache_dict := pushBack ch.cache_dict from_user (.text hint.data) })
  | none => (.textReply "图片发送失败，请稍后重试", ch)

/-- Lines 825-915: delivery of a popped ("image", reply_content) fragment.  A
(media_id, hint) tuple keeps its own hint; a local path is uploaded first
(upload is the attempt's outcome: Except.error for a raised upload, otherwise
response.get("media_id")), and an upload failure returns the error reply with
nothing cached; a bare media id is used directly.  The default hint is the one
set at line 829. -/
def handleImageFragment (ch : Channel) (from_user : String) (c : ImageContent)
    (upload : Except Unit (Option String)) : Response × Channel :=
  match c with
  | .withHint mid hint => sendImageWithHint ch from_user (some mid) hint
  | .localPath _ =>
      match upload with
      | .error _ => (.textReply "图片上传失败，请稍后重试", ch)
      | .ok mid => sendImageWithHint ch from_user mid "💡 需要文字版本？请回复：文字"
  | .mediaRef mid =>
      sendImageWithHint ch from_user (some mid) "💡 需要文字版本？请回复：文字"

/-- The hint an image fragment delivers afterwards: its stored hint text, or the
default of line 829. -/
def hintOf : ImageContent → String
  | .withHint _ h => h
  | .localPath _ => "💡 需要文字版本？请回复：文字"
  | .mediaRef _ => "💡 需要文字版本？请回复：文字"

/-- Whether a response is the image XML (a successful image delivery). -/
def isImageXml : Response → Bool
  | .imageXml _ => true
  | .textReply _ => false

/-- Whether an image fragment content is a local path needing an upload. -/
def isLocalPath : ImageContent → Bool
  | .localPath _ => true
  | .withHint _ _ => false
  | .mediaRef _ => false

/-- Program counter of one webhook invocation restricted to the two statements
of interest: the in-flight check of line 697 and the add-and-dispatch of lines
706-707 (likewise lines 613-615 in the image flow). -/
inductive Phase where
  | start
  | passedCheck
  | dispatched
  | skipped
deriving DecidableEq

/-- Two concurrent webhook invocations for the same conversation sharing
channel.running. -/
structure TwoInvocations where
  running : List String
  t1 : Phase
  t2 : Phase
deriving DecidableEq

/-- One scheduler step of one invocation for conversation u: from start it
performs the read of line 697 (skipping when u is already in-flight); from
passedCheck it performs the write of line 706 and dispatches (line 707).  The
read and the write are two separate steps, exactly as in the source. -/
def stepInvocation (running : List String) (u : String) (p : Phase) :
    Phase × List String :=
  match p with
  | .start => if u ∈ running then (.skipped, running) else (.passedCheck, running)
  | .passedCheck => (.dispatched, setAdd running u)
  | .dispatched => (.dispatched, running)
  | .skipped => (.skipped, running)

/-- Run one scheduler step: pick = true steps invocation 1, false steps
invocation 2. -/
def schedStep (u : String) (s : TwoInvocations) (pick : Bool) : TwoInvocations :=
  if pick then
    let r := stepInvocation s.running u s.t1
    { s with t1 := r.1, running := r.2 }
  else
    let r := stepInvocation s.running u s.t2
    { s with t2 := r.1, running := r.2 }

/-- Run a schedule (a list of thread picks) from a state. -/
def runSched (u : String) (sched : List Bool) (s : TwoInvocations) : TwoInvocations :=
  sched.foldl (schedStep u) s

/-- Both invocations at their first statement, nothing in-flight. -/
def initTwo : TwoInvocations := ⟨[], .start, .start⟩

/-- An empty channel: no cache, nothing running, empty ledger, no sessions. -/
def ch0 : Channel := ⟨[], [], [], []⟩

/-- A channel whose user u1 is in waiting_image state since time 0. -/
def chW : Channel :=
  ⟨[], [], [], [("u1", ⟨"waiting_image", 0, "解析题目"⟩)]⟩

/-- A 2049-byte ASCII text: one byte over the 2048-byte limit. -/
def c1In : List Char := List.replicate 2049 'a'

theorem findKey_upsert_self {α : Type} (m : List (String × α)) (k : String) (v : α) :
    findKey (upsert m k v) k = some v := by
  induction m with
  | nil => simp [upsert, findKey]
  | cons p rest ih =>
      obtain ⟨k', w⟩ := p
      by_cases h : k' = k
      · simp [upsert, h, findKey]
      · simp [upsert, h, findKey, ih]

theorem findKey_upsert_ne {α : Type} (m : List (String × α)) (k k' : String) (v : α)
    (h : k ≠ k') : findKey (upsert m k v) k' = findKey m k' := by
  induction m with
  | nil => simp [upsert, findKey, h]
  | cons p rest ih =>
      obtain ⟨a, w⟩ := p
      by_cases ha : a = k
      · simp [upsert, ha, findKey, h, ih]
      · simp [upsert, ha, findKey, ih]

theorem findKey_eraseKey_self {α : Type} (m : List (String × α)) (k : String) :
    findKey (eraseKey m k) k = none := by
  induction m with
  | nil => simp [eraseKey, findKey]
  | cons p rest ih =>
      obtain ⟨a, w⟩ := p
      by_cases ha : a = k
      · simp [eraseKey, ha, ih]
      · simp [eraseKey, ha, findKey, ih]

theorem all_upsert {α : Type} (p : String × α → Bool) (m : List (String × α))
    (k : String) (v : α) (hm : m.all p = true) (hv : p (k, v) = true) :
    (upsert m k v).all p = true := by
  induction m with
  | nil => simp [upsert, hv]
  | cons q rest ih =>
      obtain ⟨a, w⟩ := q
      simp only [List.all_cons, Bool.and_eq_true] at hm
      by_cases ha : a = k
      · simp [upsert, ha, hv, hm.2]
      · simp [upsert, ha, hm.1, ih hm.2]

theorem all_eraseKey {α : Type} (p : String × α → Bool) (m : List (String × α))
    (k : String) (hm : m.all p = true) : (eraseKey m k).all p = true := by
  induction m with
  | nil => simp [eraseKey]
  | cons q rest ih =>
      obtain ⟨a, w⟩ := q
      simp only [List.all_cons, Bool.and_eq_true] at hm
      by_cases ha : a = k
      · simp [eraseKey, ha, ih hm.2]
      · simp [eraseKey, ha, hm.1, ih hm.2]

theorem cacheInvB_pushBack (m : List (String × List Fragment)) (k : String)
    (f : Fragment) (hm : cacheInvB m = true) : cacheInvB (pushBack m k f) = true := by
  unfold cacheInvB pushBack
  cases h : findKey m k with
  | none => exact all_upsert _ m k [f] hm (by simp)
  | some l => exact all_upsert _ m k (l ++ [f]) hm (by simp)

theorem cacheInvB_popOne (m : List (String × List Fragment)) (k : String)
    (hm : cacheInvB m = true) : cacheInvB (popOne m k).2 = true := by
  unfold popOne
  cases h : findKey m k with
  | none => simpa using hm
  | some l =>
      cases l with
      | nil => simpa using hm
      | cons f rest =>
          cases rest with
          | nil =>
              show cacheInvB (eraseKey m k) = true
              exact all_eraseKey _ m k hm
          | cons r rs =>
              show cacheInvB (upsert m k (r :: rs)) = true
              exact all_upsert _ m k (r :: rs) hm (by simp)

theorem findKey_pushBack_self (m : List (String × List Fragment)) (k : String)
    (f : Fragment) :
    (findKey (pushBack m k f) k).isSome = true ∧ findKey (pushBack m k f) k ≠ some [] := by
  unfold pushBack
  cases h : findKey m k with
  | none => simp [findKey_upsert_self]
  | some l => simp [findKey_upsert_self]

theorem byteLen_append (a b : List Char) : byteLen (a ++ b) = byteLen a + byteLen b := by
  induction a with
  | nil => simp [byteLen]
  | cons c cs ih => simp [byteLen, ih]; omega

theorem byteLen_replicate (n : Nat) (c : Char) :
    byteLen (List.replicate n c) = n * c.utf8Size := by
  induction n with
  | zero => simp [byteLen]
  | succ n ih =>
      simp [List.replicate_succ, byteLen, ih]
      ring

theorem split_append (s : List Char) :
    ∀ n, (split_string_by_utf8_length s n).1 ++ (split_string_by_utf8_length s n).2 = s := by
  induction s with
  | nil => intro n; simp [split_string_by_utf8_length]
  | cons c cs ih =>
      intro n
      by_cases h : c.utf8Size ≤ n
      · simp [split_string_by_utf8_length, h, ih]
      · simp [split_string_by_utf8_length, h]

theorem split_byteLen_le (s : List Char) :
    ∀ n, byteLen (split_string_by_utf8_length s n).1 ≤ n := by
  induction s with
  | nil => intro n; simp [split_string_by_utf8_length, byteLen]
  | cons c cs ih =>
      intro n
      by_cases h : c.utf8Size ≤ n
      · have hrec := ih (n - c.utf8Size)
        simp only [split_string_by_utf8_length, h, if_true, byteLen]
        omega
      · simp [split_string_by_utf8_length, h, byteLen]

theorem byteLen_continue : byteLen continue_text = 49 := by decide

theorem mem_setAdd_self (s : List String) (x : String) : x ∈ setAdd s x := by
  unfold setAdd
  by_cases h : x ∈ s
  · simp only [if_pos h]; exact h
  · simp [h]

theorem not_mem_filter_bne (l : List String) (u : String) :
    u ∉ l.filter (fun y => y != u) := by
  intro h
  have := List.of_mem_filter h
  simp at this

theorem findKey_bump_self (l : List (String × Nat)) (mid : String) :
    findKey (bump l mid).2 mid = some (bump l mid).1 := by
  simp [bump, findKey_upsert_self]

theorem bumpSeq_counts (mid : String) :
    ∀ (n : Nat) (ledger : List (String × Nat)) (c : Nat),
      (findKey ledger mid).getD 0 = c →
      (bumpSeq n ledger mid).1 = List.range' (c + 1) n := by
  intro n
  induction n with
  | zero => intro ledger c h; simp [bumpSeq]
  | succ n ih =>
      intro ledger c h
      have h2 : (findKey (upsert ledger mid ((findKey ledger mid).getD 0 + 1)) mid).getD 0
          = c + 1 := by
        rw [findKey_upsert_self]; simp [h]
      have hrec := ih (upsert ledger mid ((findKey ledger mid).getD 0 + 1)) (c + 1) h2
      rw [h] at hrec
      simp only [bumpSeq, bump, h]
      rw [hrec]
      rfl

theorem running_after_task (ch : Channel) (u : String) (api : Except String ApiResult)
    (uo : UploadOutcome) :
    (process_image_api_async ch u api uo).running = ch.running.filter (fun y => y != u) := by
  cases api with
  | error e => rfl
  | ok r =>
      cases r with
      | textOnly s => rfl
      | textAndImage s p => cases uo <;> rfl

theorem popOne_last_deletes (m : List (String × List Fragment)) (k : String)
    (f : Fragment) (hlast : findKey m k = some [f]) :
    findKey (popOne m k).2 k = none := by
  simp [popOne, hlast, findKey_eraseKey_self]

theorem cacheInvB_popPhase (ch : Channel) (u : String)
    (hch : cacheInvB ch.cache_dict = true) :
    cacheInvB (popPhase ch u).2.cache_dict = true := by
  unfold popPhase
  by_cases hg : findKey ch.cache_dict u = none ∧ ¬ u ∈ ch.running
  · simp [hg, hch]
  · have hp := cacheInvB_popOne ch.cache_dict u hch
    rcases hpo : popOne ch.cache_dict u with ⟨of, m2⟩
    rw [hpo] at hp
    cases of <;> simp [hg, hpo, hp]

theorem cacheInvB_deliverText (ch : Channel) (u : String) (s : List Char)
    (hch : cacheInvB ch.cache_dict = true) :
    cacheInvB (deliverText ch u s).2.cache_dict = true := by
  unfold deliverText
  by_cases h : byteLen s ≤ MAX_UTF8_LEN
  · simp [h, hch]
  · simp [h, cacheInvB_pushBack _ _ _ hch]

theorem cacheInvB_handleImage (ch : Channel) (u : String) (c : ImageContent)
    (up : Except Unit (Option String)) (hch : cacheInvB ch.cache_dict = true) :
    cacheInvB (handleImageFragment ch u c up).2.cache_dict = true := by
  cases c with
  | withHint mid hint =>
      show cacheInvB (pushBack ch.cache_dict u (.text hint.data)) = true
      exact cacheInvB_pushBack _ _ _ hch
  | localPath p =>
      cases up with
      | error e => exact hch
      | ok mo =>
          cases mo with
          | none => exact hch
          | some mid =>
              show cacheInvB
                (pushBack ch.cache_dict u (.text ("💡 需要文字版本？请回复：文字").data)) = true
              exact cacheInvB_pushBack _ _ _ hch
  | mediaRef mid =>
      show cacheInvB
        (pushBack ch.cache_dict u (.text ("💡 需要文字版本？请回复：文字").data)) = true
      exact cacheInvB_pushBack _ _ _ hch

theorem cacheInvB_task (ch : Channel) (u : String) (api : Except String ApiResult)
    (uo : UploadOutcome) (hch : cacheInvB ch.cache_dict = true) :
    cacheInvB (process_image_api_async ch u api uo).cache_dict = true := by
  cases api with
  | error e =>
      show cacheInvB (pushBack ch.cache_dict u (.text ("图片处理出错: " ++ e).data)) = true
      exact cacheInvB_pushBack _ _ _ hch
  | ok r =>
      cases r with
      | textOnly s =>
          show cacheInvB (pushBack ch.cache_dict u (.text s.data)) = true
          exact cacheInvB_pushBack _ _ _ hch
      | textAndImage s p =>
          cases uo with
          | uploaded mid =>
              show cacheInvB
                (pushBack (pushBack ch.cache_dict u (.image (.mediaRef mid))) u
                  (.text s.data)) = true
              exact cacheInvB_pushBack _ _ _ (cacheInvB_pushBack _ _ _ hch)
          | fileMissing =>
              show cacheInvB (pushBack ch.cache_dict u (.text s.data)) = true
              exact cacheInvB_pushBack _ _ _ hch
          | uploadError =>
              show cacheInvB (pushBack ch.cache_dict u (.text s.data)) = true
              exact cacheInvB_pushBack _ _ _ hch

/-- C1: a popped Text fragment whose UTF-8 byte length exceeds MAX_UTF8_LEN is
delivered as head ++ continuation notice, the head cut at a UTF-8-safe boundary
to at most the limit minus the notice's byte length (so the delivered reply is
at most the limit in bytes), and the remainder is pushed back as a new Text
fragment for the same conversation with head ++ remainder equal to the original
text; a Text fragment within the limit is delivered as-is with nothing pushed
back. -/
theorem c1_text_chunking (ch : Channel) (u : String) (s : List Char) :
    (byteLen s ≤ MAX_UTF8_LEN →
      deliverText ch u s = (.textReply (String.mk s), ch)) ∧
    (MAX_UTF8_LEN < byteLen s →
      deliverText ch u s =
        (.textReply (String.mk
            ((split_string_by_utf8_length s (MAX_UTF8_LEN - byteLen continue_text)).1 ++
              continue_text)),
         { ch with cache_dict := (pushBack ch.cache_dict u
             (.text (split_string_by_utf8_length s
               (MAX_UTF8_LEN - byteLen continue_text)).2)) }) ∧
      (split_string_by_utf8_length s (MAX_UTF8_LEN - byteLen continue_text)).1 ++
        (split_string_by_utf8_length s (MAX_UTF8_LEN - byteLen continue_text)).2 = s ∧
      byteLen (split_string_by_utf8_length s (MAX_UTF8_LEN - byteLen continue_text)).1 ≤
        MAX_UTF8_LEN - byteLen continue_text ∧
      byteLen ((split_string_by_utf8_length s (MAX_UTF8_LEN - byteLen continue_text)).1 ++
        continue_text) ≤ MAX_UTF8_LEN) := by
  constructor
  · intro h
    simp [deliverText, h]
  · intro h
    have hn : ¬ byteLen s ≤ MAX_UTF8_LEN := by omega
    refine ⟨by simp [deliverText, hn], split_append s _, split_byteLen_le s _, ?_⟩
    have h1 := split_byteLen_le s (MAX_UTF8_LEN - byteLen continue_text)
    have h2 := byteLen_continue
    rw [byteLen_append]
    unfold MAX_UTF8_LEN at h1 ⊢
    omega

/-- C1 witness: the chunking branch evaluated at a concrete 2049-byte text. -/
theorem c1_text_chunking_witness :
    deliverText ch0 "u1" c1In =
      (.textReply (String.mk
          ((split_string_by_utf8_length c1In (MAX_UTF8_LEN - byteLen continue_text)).1 ++
            continue_text)),
       { ch0 with cache_dict := (pushBack ch0.cache_dict "u1"
           (.text (split_string_by_utf8_length c1In
             (MAX_UTF8_LEN - byteLen continue_text)).2)) }) ∧
    (split_string_by_utf8_length c1In (MAX_UTF8_LEN - byteLen continue_text)).1 ++
      (split_string_by_utf8_length c1In (MAX_UTF8_LEN - byteLen continue_text)).2 = c1In ∧
    byteLen (split_string_by_utf8_length c1In (MAX_UTF8_LEN - byteLen continue_text)).1 ≤
      MAX_UTF8_LEN - byteLen continue_text ∧
    byteLen ((split_string_by_utf8_length c1In (MAX_UTF8_LEN - byteLen continue_text)).1 ++
      continue_text) ≤ MAX_UTF8_LEN :=
  (c1_text_chunking ch0 "u1" c1In).2
    (by unfold c1In; rw [byteLen_replicate]; decide)

/-- C2: after the bounded wait, with the conversation still in-flight a retry
count below 3 yields the bare "success" after the fixed 2-second pad, with no
cache pop and no ledger clear; a retry count of 3 or more yields the explicit
still-thinking reply, again keeping the ledger entry; and the ledger entry for
the event id is cleared exactly when the conversation is no longer in-flight at
the end of the wait, before fragment delivery begins. -/
theorem c2_wait_policy (ch : Channel) (mid : String) (still : Bool) :
    (still = true → (bump ch.request_cnt mid).1 < 3 →
      webhookWaitStep ch mid still =
        (.rawAck "success" 2, { ch with request_cnt := (bump ch.request_cnt mid).2 })) ∧
    (still = true → 3 ≤ (bump ch.request_cnt mid).1 →
      webhookWaitStep ch mid still =
        (.renderedReply "【正在思考中，回复任意文字尝试获取回复】",
         { ch with request_cnt := (bump ch.request_cnt mid).2 })) ∧
    (still = false →
      webhookWaitStep ch mid still =
        (.proceed, { ch with request_cnt := eraseKey (bump ch.request_cnt mid).2 mid })) ∧
    (webhookWaitStep ch mid still).2.cache_dict = ch.cache_dict ∧
    (findKey (webhookWaitStep ch mid still).2.request_cnt mid = none ↔ still = false) := by
  refine ⟨?_, ?_, ?_, ?_, ?_⟩
  · intro h1 h2
    subst h1
    simp [webhookWaitStep, h2]
  · intro h1 h2
    subst h1
    have hn : ¬ (bump ch.request_cnt mid).1 < 3 := by omega
    simp [webhookWaitStep, hn]
  · intro h1
    subst h1
    simp [webhookWaitStep]
  · cases still with
    | false => simp [webhookWaitStep]
    | true =>
        by_cases hb : (bump ch.request_cnt mid).1 < 3 <;> simp [webhookWaitStep, hb]
  · cases still with
    | false => simp [webhookWaitStep, findKey_eraseKey_self]
    | true =>
        by_cases hb : (bump ch.request_cnt mid).1 < 3 <;>
          simp [webhookWaitStep, hb, findKey_bump_self]

/-- C2 witness: first redelivery (count 1 < 3) with the worker still running. -/
theorem c2_wait_policy_witness :
    webhookWaitStep ch0 "m1" true =
      (.rawAck "success" 2, { ch0 with request_cnt := (bump ch0.request_cnt "m1").2 }) :=
  (c2_wait_policy ch0 "m1" true).1 rfl (by decide)

/-- C6: the first bump of an event id records it and returns 1, each subsequent
bump of the same id before it is cleared returns the previous count plus one,
and n bumps of a fresh id return the strictly increasing counts 1, 2, ..., n
(the list List.range' 1 n). -/
theorem c6_ledger_bump_counts (ledger : List (String × Nat)) (mid : String)
    (c n : Nat) :
    (findKey ledger mid = none → bump ledger mid = (1, upsert ledger mid 1)) ∧
    (findKey ledger mid = some c →
      (bump ledger mid).1 = c + 1 ∧ (bump ledger mid).2 = upsert ledger mid (c + 1)) ∧
    (findKey ledger mid = none → (bumpSeq n ledger mid).1 = List.range' 1 n) := by
  refine ⟨?_, ?_, ?_⟩
  · intro h; simp [bump, h]
  · intro h; simp [bump, h]
  · intro h
    exact bumpSeq_counts mid n ledger 0 (by simp [h])

/-- C6 witness: three redeliveries of a fresh id observe counts 1, 2, 3. -/
theorem c6_ledger_bump_counts_witness :
    bump [] "m1" = (1, upsert [] "m1" 1) ∧
    (bumpSeq 3 [] "m1").1 = List.range' 1 3 :=
  ⟨(c6_ledger_bump_counts [] "m1" 0 3).1 rfl,
   (c6_ledger_bump_counts [] "m1" 0 3).2.2 rfl⟩

/-- C7 counterexample: the ledger clear is dict.pop(message_id) with no default
(line 767), so clearing an id that is not recorded raises KeyError (embedded as
Except.error) instead of being an error-free no-op. -/
theorem c7_clear_missing_raises : clearLedger [] "m1" = Except.error () := rfl

/-- C7 amended: clearing a recorded event id removes exactly that entry;
clearing an id that is not recorded (including clearing the same id a second
time) raises KeyError rather than being a no-op; in the webhook flow the clear
is always preceded by a bump of the same id, after which it always succeeds. -/
theorem c7_clear_amended (ledger : List (String × Nat)) (mid : String) (c : Nat) :
    (findKey ledger mid = none → clearLedger ledger mid = Except.error ()) ∧
    (findKey ledger mid = some c →
      clearLedger ledger mid = Except.ok (eraseKey ledger mid) ∧
      findKey (eraseKey ledger mid) mid = none) ∧
    clearLedger (bump ledger mid).2 mid = Except.ok (eraseKey (bump ledger mid).2 mid) := by
  refine ⟨?_, ?_, ?_⟩
  · intro h; simp [clearLedger, h]
  · intro h; simp [clearLedger, h, findKey_eraseKey_self]
  · simp [bump, clearLedger, findKey_upsert_self]

/-- C7 amended witness: a recorded id clears once, and the second clear of the
same id errors. -/
theorem c7_clear_amended_witness :
    (clearLedger [("m1", 1)] "m1" = Except.ok (eraseKey [("m1", 1)] "m1") ∧
      findKey (eraseKey [("m1", 1)] "m1") "m1" = none) ∧
    clearLedger [] "m1" = Except.error () :=
  ⟨(c7_clear_amended [("m1", 1)] "m1" 1).2.1 (by decide),
   (c7_clear_amended [] "m1" 0).1 rfl⟩

/-- C3: an image received in state waiting_image strictly after the configured
timeout (default 300) clears the state, returns the expired-session reply, and
dispatches no background work, leaving the in-flight set untouched; an image
received at or before the timeout clears the state, adds the conversation to
the in-flight set, dispatches the background task with the image path, and
returns the analysing acknowledgement, which is not the expiry message. -/
theorem c3_waiting_image_timeout (ch : Channel) (u path : String) (st : SessionState)
    (now timeout : Int) (kws : List String)
    (hst : findKey ch.user_session_state u = some st)
    (hw : st.state = "waiting_image") :
    (now - st.trigger_time > timeout →
      handleImageRequireKeyword ch u path now timeout kws =
        ("会话已超时，请重新发送触发指令（如：解析题目）",
         { ch with user_session_state := eraseKey ch.user_session_state u }, none)) ∧
    (now - st.trigger_time ≤ timeout →
      handleImageRequireKeyword ch u path now timeout kws =
        ("✅ 已收到图片，正在分析中...请稍候",
         { ch with running := setAdd ch.running u,
                   user_session_state := eraseKey ch.user_session_state u },
         some path) ∧
      u ∈ setAdd ch.running u ∧
      findKey (eraseKey ch.user_session_state u) u = none ∧
      ("✅ 已收到图片，正在分析中...请稍候" : String) ≠
        "会话已超时，请重新发送触发指令（如：解析题目）") := by
  constructor
  · intro h
    simp [handleImageRequireKeyword, hst, hw, h]
  · intro h
    have hn : ¬ now - st.trigger_time > timeout := by omega
    exact ⟨by simp [handleImageRequireKeyword, hst, hw, hn], mem_setAdd_self _ _,
      findKey_eraseKey_self _ _, by decide⟩

/-- C3 witness: the expired branch at 301 seconds past a timeout of 300. -/
theorem c3_waiting_image_timeout_witness :
    handleImageRequireKeyword chW "u1" "tmp/img.png" 301 300 ["解析题目"] =
      ("会话已超时，请重新发送触发指令（如：解析题目）",
       { chW with user_session_state := eraseKey chW.user_session_state "u1" }, none) :=
  (c3_waiting_image_timeout chW "u1" "tmp/img.png" ⟨"waiting_image", 0, "解析题目"⟩
    301 300 ["解析题目"] (by decide) rfl).1 (by decide)

/-- C4: whether the remote call succeeds or raises, the background task leaves
the conversation out of the in-flight set when it finishes, and a raised call
is converted into a Text fragment appended to the conversation's reply cache
rather than escaping the task. -/
theorem c4_background_task_cleanup (ch : Channel) (u : String)
    (api : Except String ApiResult) (uo : UploadOutcome) (e : String) :
    u ∉ (process_image_api_async ch u api uo).running ∧
    (api = Except.error e →
      (process_image_api_async ch u api uo).cache_dict =
        pushBack ch.cache_dict u (Fragment.text ("图片处理出错: " ++ e).data)) := by
  constructor
  · rw [running_after_task]
    exact not_mem_filter_bne ch.running u
  · intro h
    subst h
    rfl

/-- C4 witness: a raised remote call at a concrete input. -/
theorem c4_background_task_cleanup_witness :
    "u1" ∉ (process_image_api_async ch0 "u1" (Except.error "boom")
      UploadOutcome.fileMissing).running ∧
    (process_image_api_async ch0 "u1" (Except.error "boom")
        UploadOutcome.fileMissing).cache_dict =
      pushBack ch0.cache_dict "u1" (Fragment.text ("图片处理出错: " ++ "boom").data) :=
  ⟨(c4_background_task_cleanup ch0 "u1" (Except.error "boom")
      UploadOutcome.fileMissing "boom").1,
   (c4_background_task_cleanup ch0 "u1" (Except.error "boom")
      UploadOutcome.fileMissing "boom").2 rfl⟩

/-- C5: no conversation key ever maps to an empty fragment list — popping the
last fragment deletes the conversation entry, every appending path (chunk
remainder push-back, post-image hint caching, worker completion) leaves the
entry non-empty, and the non-empty-queues invariant is preserved by the pop
phase, text delivery, image delivery and the background task. -/
theorem c5_cache_nonempty_invariant (m : List (String × List Fragment))
    (ch : Channel) (k u : String) (f g : Fragment) (s : List Char)
    (c : ImageContent) (up : Except Unit (Option String))
    (api : Except String ApiResult) (uo : UploadOutcome)
    (hch : cacheInvB ch.cache_dict = true)
    (hlast : findKey m k = some [f]) :
    findKey (popOne m k).2 k = none ∧
    (findKey (pushBack ch.cache_dict u g) u).isSome = true ∧
    findKey (pushBack ch.cache_dict u g) u ≠ some [] ∧
    cacheInvB (popOne ch.cache_dict u).2 = true ∧
    cacheInvB (pushBack ch.cache_dict u g) = true ∧
    cacheInvB (popPhase ch u).2.cache_dict = true ∧
    cacheInvB (deliverText ch u s).2.cache_dict = true ∧
    cacheInvB (handleImageFragment ch u c up).2.cache_dict = true ∧
    cacheInvB (process_image_api_async ch u api uo).cache_dict = true :=
  ⟨popOne_last_deletes m k f hlast,
   (findKey_pushBack_self ch.cache_dict u g).1,
   (findKey_pushBack_self ch.cache_dict u g).2,
   cacheInvB_popOne ch.cache_dict u hch,
   cacheInvB_pushBack ch.cache_dict u g hch,
   cacheInvB_popPhase ch u hch,
   cacheInvB_deliverText ch u s hch,
   cacheInvB_handleImage ch u c up hch,
   cacheInvB_task ch u api uo hch⟩

/-- C5 witness: the invariant facts evaluated at a concrete one-entry cache. -/
theorem c5_cache_nonempty_invariant_witness :
    findKey (popOne [("k1", [Fragment.voice "v1"])] "k1").2 "k1" = none ∧
    (findKey (pushBack ch0.cache_dict "u1" (Fragment.voice "v2")) "u1").isSome = true ∧
    cacheInvB (pushBack ch0.cache_dict "u1" (Fragment.voice "v2")) = true :=
  ⟨(c5_cache_nonempty_invariant [("k1", [Fragment.voice "v1"])] ch0 "k1" "u1"
      (Fragment.voice "v1") (Fragment.voice "v2") [] (ImageContent.mediaRef "m")
      (Except.ok none) (Except.ok (ApiResult.textOnly "t")) UploadOutcome.fileMissing
      rfl (by decide)).1,
   (c5_cache_nonempty_invariant [("k1", [Fragment.voice "v1"])] ch0 "k1" "u1"
      (Fragment.voice "v1") (Fragment.voice "v2") [] (ImageContent.mediaRef "m")
      (Except.ok none) (Except.ok (ApiResult.textOnly "t")) UploadOutcome.fileMissing
      rfl (by decide)).2.1,
   (c5_cache_nonempty_invariant [("k1", [Fragment.voice "v1"])] ch0 "k1" "u1"
      (Fragment.voice "v1") (Fragment.voice "v2") [] (ImageContent.mediaRef "m")
      (Except.ok none) (Except.ok (ApiResult.textOnly "t")) UploadOutcome.fileMissing
      rfl (by decide)).2.2.2.2.1⟩

theorem popPhase_empty (ch : Channel) (u : String)
    (h : findKey ch.cache_dict u = none ∨ findKey ch.cache_dict u = some []) :
    popPhase ch u = (PopOutcome.ack "success", ch) := by
  obtain ⟨cd, r, rc, ss⟩ := ch
  unfold popPhase
  rcases h with h | h
  · by_cases hr : u ∈ r
    · simp only at h ⊢
      simp [h, hr, popOne]
    · simp only at h ⊢
      simp [h, hr]
  · have hg : ¬ (findKey cd u = none ∧ ¬ u ∈ r) := by
      simp only at h
      simp [h]
    simp only at h ⊢
    simp [hg, popOne, h]

theorem popIter_empty (ch : Channel) (u : String) (n : Nat)
    (h : findKey ch.cache_dict u = none ∨ findKey ch.cache_dict u = some []) :
    popIter u n ch = ch := by
  induction n with
  | zero => rfl
  | succ n ih =>
      show popIter u n (popPhase ch u).2 = ch
      rw [popPhase_empty ch u h]
      exact ih

/-- C8: popping from an absent or empty conversation queue leaves the whole
channel state (all four stores) unchanged, makes the webhook respond with the
bare acknowledgement "success", and repeating the pop any number of times
yields the same unchanged state. -/
theorem c8_pop_empty_idempotent (ch : Channel) (u : String) (n : Nat)
    (h : findKey ch.cache_dict u = none ∨ findKey ch.cache_dict u = some []) :
    popPhase ch u = (PopOutcome.ack "success", ch) ∧ popIter u n ch = ch :=
  ⟨popPhase_empty ch u h, popIter_empty ch u n h⟩

/-- C8 witness: five pops from an empty channel. -/
theorem c8_pop_empty_idempotent_witness :
    popPhase ch0 "u1" = (PopOutcome.ack "success", ch0) ∧ popIter "u1" 5 ch0 = ch0 :=
  c8_pop_empty_idempotent ch0 "u1" 5 (Or.inl rfl)

/-- C9 counterexample: the in-flight check (line 697) and the insertion
(line 706) are two separate steps, so scheduling invocation 1's check, then
invocation 2's check, then both insertions, lets two concurrent webhook
invocations for the same conversation "u1" both dispatch work — refuting the
claim that the pair is a single atomic test-and-set under which both cannot
dispatch. -/
theorem c9_both_dispatch_counterexample :
    (runSched "u1" [true, false, true, false] initTwo).t1 = Phase.dispatched ∧
    (runSched "u1" [true, false, true, false] initTwo).t2 = Phase.dispatched := by
  decide

/-- C9 amended: the check that a conversation is not in-flight and its insertion
into the in-flight set are a separate read followed by a write, so two
concurrent webhook invocations for the same conversation can both dispatch work
under an interleaved schedule; only when one invocation completes its check and
insertion before the other starts does the second one skip dispatching. -/
theorem c9_check_then_act (u : String) :
    ((runSched "u1" [true, false, true, false] initTwo).t1 = Phase.dispatched ∧
      (runSched "u1" [true, false, true, false] initTwo).t2 = Phase.dispatched) ∧
    ((runSched u [true, true, false, false] initTwo).t1 = Phase.dispatched ∧
      (runSched u [true, true, false, false] initTwo).t2 = Phase.skipped) := by
  constructor
  · decide
  · constructor <;>
      simp [runSched, schedStep, stepInvocation, initTwo, setAdd, List.foldl]

/-- C10: every successful delivery of an Image fragment — a media handle in
hand, whether stored as a (media_id, hint) pair, uploaded from a local path, or
a bare media id — appends the fragment's hint text (or the default hint) to the
conversation's reply cache, leaving a non-empty cache hit for the next inbound
message; when the upload of a local path raises, the error reply is returned
and nothing is cached. -/
theorem c10_image_hint_caching (ch : Channel) (u : String) (c : ImageContent)
    (up : Except Unit (Option String)) :
    (isImageXml (handleImageFragment ch u c up).1 = true →
      (handleImageFragment ch u c up).2.cache_dict =
        pushBack ch.cache_dict u (Fragment.text (hintOf c).data) ∧
      (findKey (handleImageFragment ch u c up).2.cache_dict u).isSome = true ∧
      findKey (handleImageFragment ch u c up).2.cache_dict u ≠ some []) ∧
    (isLocalPath c = true → up = Except.error () →
      handleImageFragment ch u c up =
        (Response.textReply "图片上传失败，请稍后重试", ch)) := by
  constructor
  · intro hx
    cases c with
    | withHint mid hint =>
        exact ⟨rfl, (findKey_pushBack_self ch.cache_dict u (.text hint.data)).1,
          (findKey_pushBack_self ch.cache_dict u (.text hint.data)).2⟩
    | localPath p =>
        cases up with
        | error e =>
            simp [handleImageFragment, isImageXml] at hx
        | ok mo =>
            cases mo with
            | none =>
                simp [handleImageFragment, sendImageWithHint, isImageXml] at hx
            | some mid =>
                exact ⟨rfl,
                  (findKey_pushBack_self ch.cache_dict u
                    (.text ("💡 需要文字版本？请回复：文字").data)).1,
                  (findKey_pushBack_self ch.cache_dict u
                    (.text ("💡 需要文字版本？请回复：文字").data)).2⟩
    | mediaRef mid =>
        exact ⟨rfl,
          (findKey_pushBack_self ch.cache_dict u
            (.text ("💡 需要文字版本？请回复：文字").data)).1,
          (findKey_pushBack_self ch.cache_dict u
            (.text ("💡 需要文字版本？请回复：文字").data)).2⟩
  · intro hl he
    cases c with
    | withHint mid hint => simp [isLocalPath] at hl
    | mediaRef mid => simp [isLocalPath] at hl
    | localPath p =>
        subst he
        rfl

/-- C10 witness: an image fragment stored as a (media_id, hint) pair. -/
theorem c10_image_hint_caching_witness :
    (handleImageFragment ch0 "u1" (ImageContent.withHint "m77" "提示")
        (Except.ok none)).2.cache_dict =
      pushBack ch0.cache_dict "u1"
        (Fragment.text (hintOf (ImageContent.withHint "m77" "提示")).data) ∧
    (findKey (handleImageFragment ch0 "u1" (ImageContent.withHint "m77" "提示")
        (Except.ok none)).2.cache_dict "u1").isSome = true ∧
    findKey (handleImageFragment ch0 "u1" (ImageContent.withHint "m77" "提示")
        (Except.ok none)).2.cache_dict "u1" ≠ some [] :=
  (c10_image_hint_caching ch0 "u1" (ImageContent.withHint "m77" "提示")
    (Except.ok none)).1 (by decide)

end WMP
